import Mathlib

/-!
Shallow embedding of the Handshake Python SDK client
(`src/sdk/python/handshake.py`) and proofs about its request dispatch,
local validation, payload construction, response mapping and error
taxonomy.

Modelling conventions:
* JSON values returned by `response.json()` are modelled by the inductive
  type `Json`; Python numbers are rationals (no float rounding is exercised
  by any operation modelled here), Python `dict`s are association lists
  whose lookup is `List.lookup` (JSON-decoded dicts have distinct keys).
* Python truthiness (`if x:`, `not x`) on JSON values is `truthy`.
* A call to `self._session.request` is modelled by an oracle
  `Request → RequestOutcome` giving, for the issued request, either a
  transport failure (`requests.RequestException`) or an HTTP response;
  the response carries its status code, its raw text, and the result of
  `response.json()` (`none` when the body does not parse as JSON).
* Each client operation returns, next to its `Except` result, the list of
  HTTP requests it issued, so that "no network call" is `[]`.
* Exceptions raised by the SDK's own code are `SdkError`; Python-level
  exceptions that can escape the SDK (`AttributeError` from calling
  `.get` on a non-dict, `ValueError` from an `Enum` lookup miss,
  `TypeError` from iterating a non-iterable) are the other constructors
  of `Raised`.
-/

namespace HandshakeSDK

/-- JSON values, as produced by `response.json()` in the Python SDK. -/
inductive Json where
  | null : Json
  | bool (b : Bool) : Json
  | num (q : ℚ) : Json
  | str (s : String) : Json
  | arr (elems : List Json) : Json
  | obj (kvs : List (String × Json)) : Json

/-- Python truthiness of a JSON value: `None`, `False`, `0`, `""`, `[]`
and `\x7b\x7d` are falsy, everything else is truthy. -/
def truthy : Json → Bool
  | .null => false
  | .bool b => b
  | .num q => decide (q ≠ 0)
  | .str s => decide (s ≠ "")
  | .arr elems => !elems.isEmpty
  | .obj kvs => !kvs.isEmpty

/-- Whether a JSON value is an object (a Python `dict`, the only JSON
value with a `.get` method). -/
def Json.isObj : Json → Bool
  | .obj _ => true
  | _ => false

/-- The SDK's own exception classes (`handshake.py` lines 117-134):
`HandshakeError`, `AuthenticationError`, `NotFoundError`,
`ValidationError`.  Each carries the argument it was raised with
(a string message, or the raw `data["error"]` JSON value). -/
inductive SdkError where
  | handshakeError (arg : Json) : SdkError
  | authenticationError (arg : Json) : SdkError
  | notFoundError (arg : Json) : SdkError
  | validationError (arg : Json) : SdkError

/-- The SDK's exception classes as declared (without their arguments),
for stating facts about the class hierarchy. -/
inductive ErrClass where
  | handshakeError : ErrClass
  | authenticationError : ErrClass
  | notFoundError : ErrClass
  | validationError : ErrClass
deriving DecidableEq, Repr

/-- Direct superclass of each SDK exception class, read off the `class`
declarations: `HandshakeError(Exception)` (no SDK superclass),
`AuthenticationError(HandshakeError)`, `NotFoundError(HandshakeError)`,
`ValidationError(HandshakeError)`. -/
def superclass : ErrClass → Option ErrClass
  | .handshakeError => none
  | .authenticationError => some .handshakeError
  | .notFoundError => some .handshakeError
  | .validationError => some .handshakeError

/-- The class of a raised SDK error. -/
def SdkError.cls : SdkError → ErrClass
  | .handshakeError _ => .handshakeError
  | .authenticationError _ => .authenticationError
  | .notFoundError _ => .notFoundError
  | .validationError _ => .validationError

/-- Everything a client operation can raise: an SDK error, or a
Python-level error escaping the SDK code (`AttributeError` from `.get`
on a non-dict, `ValueError` from an `Enum` value miss, `TypeError` from
iterating a non-iterable). -/
inductive Raised where
  | sdk (e : SdkError) : Raised
  | attributeError : Raised
  | valueError : Raised
  | typeError : Raised

/-- An HTTP response as seen by `_request`: status code, raw body text,
and the outcome of `response.json()` (`none` when parsing raises
`ValueError`). -/
structure HttpResponse where
  status : Nat
  text : String
  jsonBody : Option Json

/-- Outcome of the single `self._session.request(...)` call: a
transport-level failure (`requests.RequestException`: DNS, connection
refused, timeout) with its message, or a received response. -/
inductive RequestOutcome where
  | transportFail (cause : String) : RequestOutcome
  | gotResponse (r : HttpResponse) : RequestOutcome

/-- The response-mapping part of `Handshake._request` (lines 182-202):
transport failure wrapping, the 401/403/404 status checks in order, the
JSON-parse check, the `success`/`error` check, and returning the parsed
body.  `data.get("success", True)` / `"error" in data` are only
meaningful on a dict; on any other parsed JSON value the Python code
raises `AttributeError` at `data.get`. -/
def mapResponse : RequestOutcome → Except Raised Json
  | .transportFail cause =>
      .error (.sdk (.handshakeError (.str ("Request failed: " ++ cause))))
  | .gotResponse r =>
      if r.status = 401 then
        .error (.sdk (.authenticationError (.str "Invalid API key")))
      else if r.status = 403 then
        .error (.sdk (.authenticationError (.str "Access forbidden")))
      else if r.status = 404 then
        .error (.sdk (.notFoundError (.str "Escrow not found")))
      else
        match r.jsonBody with
        | none =>
            .error (.sdk (.handshakeError
              (.str ("Invalid JSON response: " ++ r.text))))
        | some (.obj kvs) =>
            if !truthy ((kvs.lookup "success").getD (.bool true))
                && ((kvs.lookup "error").isSome) then
              .error (.sdk (.handshakeError ((kvs.lookup "error").getD .null)))
            else
              .ok (.obj kvs)
        | some _ => .error .attributeError

/-- The `EscrowStatus` enum. -/
inductive EscrowStatus where
  | LOCKED : EscrowStatus
  | PENDING_VERIFICATION : EscrowStatus
  | VERIFIED : EscrowStatus
  | REJECTED : EscrowStatus
  | PAID : EscrowStatus
  | REFUNDED : EscrowStatus
deriving DecidableEq, Repr

/-- Python `EscrowStatus(value)`: the enum member whose value equals the
argument, `none` when the lookup raises `ValueError`. -/
def EscrowStatus.fromValue : Json → Option EscrowStatus
  | .str "LOCKED" => some .LOCKED
  | .str "PENDING_VERIFICATION" => some .PENDING_VERIFICATION
  | .str "VERIFIED" => some .VERIFIED
  | .str "REJECTED" => some .REJECTED
  | .str "PAID" => some .PAID
  | .str "REFUNDED" => some .REFUNDED
  | _ => none

/-- The `Verdict` enum. -/
inductive Verdict where
  | VALID : Verdict
  | INVALID : Verdict
deriving DecidableEq, Repr

/-- Python `Verdict(value)`: enum member by value, `none` on `ValueError`. -/
def Verdict.fromValue : Json → Option Verdict
  | .str "VALID" => some .VALID
  | .str "INVALID" => some .INVALID
  | _ => none

/-- The `Escrow` dataclass.  Python's `data.get(key)` can return `None`,
so fields without a `.get` default are `Option Json`; fields with a
default (`amount_locked`, `currency`, `toll_fee`, `worker_payout`) always
hold a JSON value; `status` holds the parsed enum member. -/
structure Escrow where
  id : Option Json
  buyer_agent_id : Option Json
  worker_agent_id : Option Json
  job_description : Option Json
  amount_locked : Json
  currency : Json
  status : EscrowStatus
  toll_fee : Json
  worker_payout : Json
  worker_wallet : Option Json
  buyer_wallet : Option Json
  work_submitted : Option Json
  judge_verdict : Option Json
  payout_tx_hash : Option Json
  toll_tx_hash : Option Json
  created_at : Option Json

/-- `Escrow.from_dict` on a dict (lines 72-91): every field is
`data.get(key)` or `data.get(key, default)`, and `status` is
`EscrowStatus(data.get("status", "LOCKED"))`, which raises `ValueError`
when the value is not one of the six status strings. -/
def Escrow.from_dict (kvs : List (String × Json)) : Except Raised Escrow :=
  match EscrowStatus.fromValue ((kvs.lookup "status").getD (.str "LOCKED")) with
  | none => .error .valueError
  | some st =>
      .ok
        { id := kvs.lookup "id"
          buyer_agent_id := kvs.lookup "buyer_agent_id"
          worker_agent_id := kvs.lookup "worker_agent_id"
          job_description := kvs.lookup "job_description"
          amount_locked := (kvs.lookup "amount_locked").getD (.num 0)
          currency := (kvs.lookup "currency").getD (.str "ETH")
          status := st
          toll_fee := (kvs.lookup "toll_fee").getD (.num 0)
          worker_payout := (kvs.lookup "worker_payout").getD (.num 0)
          worker_wallet := kvs.lookup "worker_wallet"
          buyer_wallet := kvs.lookup "buyer_wallet"
          work_submitted := kvs.lookup "work_submitted"
          judge_verdict := kvs.lookup "judge_verdict"
          payout_tx_hash := kvs.lookup "payout_tx_hash"
          toll_tx_hash := kvs.lookup "toll_tx_hash"
          created_at := kvs.lookup "created_at" }

/-- `Escrow.from_dict` applied to an arbitrary JSON value: on a non-dict
argument the first `data.get` raises `AttributeError`. -/
def Escrow.from_dict_json : Json → Except Raised Escrow
  | .obj kvs => Escrow.from_dict kvs
  | _ => .error .attributeError

/-- `Escrow.from_dict(data.get("escrow", \x7b\x7d))`, the response
mapping shared by `get_escrow` and `create_escrow` (lines 229, 288). -/
def escrow_from_response : Json → Except Raised Escrow
  | .obj kvs => Escrow.from_dict_json ((kvs.lookup "escrow").getD (.obj []))
  | _ => .error .attributeError

/-- The `VerificationResult` dataclass. -/
structure VerificationResult where
  verdict : Verdict
  status : EscrowStatus
  message : Json

/-- Response mapping of `verify` (lines 338-342): `Verdict` and
`EscrowStatus` enum lookups (each may raise `ValueError`, the `verdict`
argument being evaluated first), then `message`. -/
def verificationResult_from : Json → Except Raised VerificationResult
  | .obj kvs =>
      match Verdict.fromValue ((kvs.lookup "verdict").getD (.str "INVALID")) with
      | none => .error .valueError
      | some v =>
          match EscrowStatus.fromValue
              ((kvs.lookup "status").getD (.str "REJECTED")) with
          | none => .error .valueError
          | some st =>
              .ok { verdict := v, status := st
                    message := (kvs.lookup "message").getD (.str "") }
  | _ => .error .attributeError

/-- The `PayoutResult` dataclass; fields hold the raw JSON values the
server returned (defaulted as in lines 363-370). -/
structure PayoutResult where
  success : Json
  worker_paid : Json
  toll_fee : Json
  payout_tx : Option Json
  toll_tx : Option Json
  message : Json

/-- Response mapping of `payout` (lines 363-370). -/
def payoutResult_from : Json → Except Raised PayoutResult
  | .obj kvs =>
      .ok
        { success := (kvs.lookup "success").getD (.bool false)
          worker_paid := (kvs.lookup "worker_paid").getD (.num 0)
          toll_fee := (kvs.lookup "toll_fee").getD (.num 0)
          payout_tx := kvs.lookup "payout_tx"
          toll_tx := kvs.lookup "toll_tx"
          message := (kvs.lookup "message").getD (.str "") }
  | _ => .error .attributeError

/-- Response mapping of `list_escrows` (line 216): iterate
`data.get("escrows", [])` applying `Escrow.from_dict`.  Iterating a
Python list yields its elements; iterating a dict yields its keys
(strings) and a string its characters, on which `from_dict` raises
`AttributeError`; iterating any other value raises `TypeError`. -/
def escrows_from : Json → Except Raised (List Escrow)
  | .obj kvs =>
      match (kvs.lookup "escrows").getD (.arr []) with
      | .arr elems => elems.mapM Escrow.from_dict_json
      | .obj ekvs => if ekvs.isEmpty then .ok [] else .error .attributeError
      | .str s => if s = "" then .ok [] else .error .attributeError
      | _ => .error .typeError
  | _ => .error .attributeError

/-- An HTTP request issued by the client: method, endpoint path (relative
to `<base_url>/api`), and optional JSON body (`json=` keyword). -/
structure Request where
  method : String
  endpoint : String
  json : Option Json

/-- `Handshake._request`: issue the single request through the transport
oracle, map the outcome, and record the one request issued. -/
def request_op (oracle : Request → RequestOutcome) (req : Request) :
    Except Raised Json × List Request :=
  (mapResponse (oracle req), [req])

/-- `Handshake.health`. -/
def health (oracle : Request → RequestOutcome) :
    Except Raised Json × List Request :=
  request_op oracle { method := "GET", endpoint := "/health", json := none }

/-- `Handshake.list_escrows`. -/
def list_escrows (oracle : Request → RequestOutcome) :
    Except Raised (List Escrow) × List Request :=
  let p := request_op oracle { method := "GET", endpoint := "/escrows", json := none }
  (p.1.bind escrows_from, p.2)

/-- `Handshake.get_escrow`. -/
def get_escrow (oracle : Request → RequestOutcome) (escrow_id : String) :
    Except Raised Escrow × List Request :=
  let p := request_op oracle
    { method := "GET", endpoint := "/escrows/" ++ escrow_id, json := none }
  (p.1.bind escrow_from_response, p.2)

/-- Arguments of `Handshake.create_escrow`; the three optional parameters
default to `None`. -/
structure CreateArgs where
  buyer_agent_id : String
  job_description : String
  amount : ℚ
  currency : String
  worker_agent_id : Option String := none
  worker_wallet : Option String := none
  buyer_wallet : Option String := none

/-- One optional payload entry: `if arg: payload[key] = arg` — the key is
added only when the argument is a truthy string (provided and
non-empty). -/
def optEntry (key : String) : Option String → List (String × Json)
  | some s => if s = "" then [] else [(key, .str s)]
  | none => []

/-- The request payload built by `create_escrow` after validation
(lines 274-285). -/
def create_payload (a : CreateArgs) : List (String × Json) :=
  [("buyer_agent_id", .str a.buyer_agent_id),
   ("job_description", .str a.job_description),
   ("amount_locked", .num a.amount),
   ("currency", .str a.currency)]
  ++ optEntry "worker_agent_id" a.worker_agent_id
  ++ optEntry "worker_wallet" a.worker_wallet
  ++ optEntry "buyer_wallet" a.buyer_wallet

/-- `Handshake.create_escrow` (lines 231-288): the four local validation
checks in order, each raising `ValidationError` before any request is
issued; then one POST with the payload, and the shared escrow response
mapping. -/
def create_escrow (oracle : Request → RequestOutcome) (a : CreateArgs) :
    Except Raised Escrow × List Request :=
  if a.buyer_agent_id = "" then
    (.error (.sdk (.validationError (.str "buyer_agent_id is required"))), [])
  else if a.job_description = "" then
    (.error (.sdk (.validationError (.str "job_description is required"))), [])
  else if a.amount ≤ 0 then
    (.error (.sdk (.validationError (.str "amount must be positive"))), [])
  else if a.currency ≠ "ETH" ∧ a.currency ≠ "USDC" then
    (.error (.sdk (.validationError (.str "currency must be ETH or USDC"))), [])
  else
    let p := request_op oracle
      { method := "POST", endpoint := "/escrows"
        json := some (.obj (create_payload a)) }
    (p.1.bind escrow_from_response, p.2)

/-- `Handshake.submit_work`. -/
def submit_work (oracle : Request → RequestOutcome)
    (escrow_id : String) (work : String) :
    Except Raised Json × List Request :=
  request_op oracle
    { method := "POST", endpoint := "/escrows/" ++ escrow_id ++ "/submit"
      json := some (.obj [("work_description", .str work)]) }

/-- `Handshake.verify`. -/
def verify (oracle : Request → RequestOutcome) (escrow_id : String) :
    Except Raised VerificationResult × List Request :=
  let p := request_op oracle
    { method := "POST", endpoint := "/escrows/" ++ escrow_id ++ "/verify"
      json := none }
  (p.1.bind verificationResult_from, p.2)

/-- `Handshake.payout` (lines 344-370): one POST to the payout endpoint,
then the `PayoutResult` response mapping; no local check of any kind. -/
def payout (oracle : Request → RequestOutcome) (escrow_id : String) :
    Except Raised PayoutResult × List Request :=
  let p := request_op oracle
    { method := "POST", endpoint := "/escrows/" ++ escrow_id ++ "/payout"
      json := none }
  (p.1.bind payoutResult_from, p.2)

/-- `Handshake.refund`. -/
def refund (oracle : Request → RequestOutcome) (escrow_id : String) :
    Except Raised Json × List Request :=
  request_op oracle
    { method := "POST", endpoint := "/escrows/" ++ escrow_id ++ "/refund"
      json := none }

/-! Helper lemmas shared by several claim proofs. -/

/-- Lookup distributes over list append, first hit winning. -/
theorem lookup_append (k : String) (xs ys : List (String × Json)) :
    (xs ++ ys).lookup k = ((xs.lookup k).or (ys.lookup k)) := by
  induction xs with
  | nil => simp
  | cons hd tl ih =>
      obtain ⟨a, b⟩ := hd
      cases hbeq : k == a <;> simp [List.lookup, hbeq, ih]

/-- An optional payload entry never binds a different key. -/
theorem optEntry_lookup_ne (key k : String) (v : Option String) (h : k ≠ key) :
    (optEntry key v).lookup k = none := by
  have hb : (k == key) = false := by
    cases hbeq : k == key
    · rfl
    · exact absurd (eq_of_beq hbeq) h
  cases v with
  | none => rfl
  | some s =>
      by_cases hs : s = "" <;> simp [optEntry, hs, List.lookup, hb]

/-- What an optional payload entry binds at its own key. -/
theorem optEntry_lookup_self (key : String) (v : Option String) :
    (optEntry key v).lookup key =
      (match v with
       | none => none
       | some s => if s = "" then none else some (.str s)) := by
  cases v with
  | none => rfl
  | some s =>
      by_cases hs : s = "" <;> simp [optEntry, hs, List.lookup]

/-- On a response whose status is none of 401/403/404 and whose body
parses to a JSON object, `_request` reduces to the `success`/`error`
check. -/
theorem mapResponse_obj (status : Nat) (text : String)
    (kvs : List (String × Json))
    (h1 : status ≠ 401) (h2 : status ≠ 403) (h3 : status ≠ 404) :
    mapResponse (.gotResponse ⟨status, text, some (.obj kvs)⟩) =
      (if !truthy ((kvs.lookup "success").getD (.bool true))
          && ((kvs.lookup "error").isSome) then
        .error (.sdk (.handshakeError ((kvs.lookup "error").getD .null)))
      else
        .ok (.obj kvs)) := by
  simp [mapResponse, h1, h2, h3]

/-- `_request` never raises `ValidationError`. -/
theorem mapResponse_no_validation (o : RequestOutcome) (v : Json) :
    mapResponse o ≠ .error (.sdk (.validationError v)) := by
  intro h
  rcases o with c | r
  · simp [mapResponse] at h
  · obtain ⟨status, text, body⟩ := r
    by_cases h1 : status = 401
    · simp [mapResponse, h1] at h
    · by_cases h2 : status = 403
      · simp [mapResponse, h1, h2] at h
      · by_cases h3 : status = 404
        · simp [mapResponse, h1, h2, h3] at h
        · rcases body with _ | j
          · simp [mapResponse, h1, h2, h3] at h
          · cases j with
            | obj kvs =>
                rw [mapResponse_obj status text kvs h1 h2 h3] at h
                split at h <;> simp at h
            | null => simp [mapResponse, h1, h2, h3] at h
            | bool b => simp [mapResponse, h1, h2, h3] at h
            | num q => simp [mapResponse, h1, h2, h3] at h
            | str s => simp [mapResponse, h1, h2, h3] at h
            | arr elems => simp [mapResponse, h1, h2, h3] at h

/-- The `payout` response mapping never raises `ValidationError`. -/
theorem payoutResult_from_no_validation (j v : Json) :
    payoutResult_from j ≠ .error (.sdk (.validationError v)) := by
  intro h
  cases j <;> simp [payoutResult_from] at h

/-! Claim theorems. -/

/-- C2: for every response received by `_request`, status 401 yields
`AuthenticationError("Invalid API key")`, status 403 yields
`AuthenticationError("Access forbidden")`, and status 404 yields
`NotFoundError("Escrow not found")`, each regardless of the response
body (which is not parsed before these checks). -/
theorem c2_status_code_mapping (r : HttpResponse) :
    (r.status = 401 → mapResponse (.gotResponse r) =
      .error (.sdk (.authenticationError (.str "Invalid API key")))) ∧
    (r.status = 403 → mapResponse (.gotResponse r) =
      .error (.sdk (.authenticationError (.str "Access forbidden")))) ∧
    (r.status = 404 → mapResponse (.gotResponse r) =
      .error (.sdk (.notFoundError (.str "Escrow not found")))) := by
  refine ⟨fun h => ?_, fun h => ?_, fun h => ?_⟩ <;>
    simp [mapResponse, h]

/-- C2 witness: the three status mappings at concrete responses whose
bodies would have triggered different behavior had they been parsed. -/
theorem c2_status_code_mapping_witness :
    mapResponse (.gotResponse ⟨401, "nonsense",
        some (.obj [("success", .bool false), ("error", .str "x")])⟩) =
      .error (.sdk (.authenticationError (.str "Invalid API key"))) ∧
    mapResponse (.gotResponse ⟨403, "", none⟩) =
      .error (.sdk (.authenticationError (.str "Access forbidden"))) ∧
    mapResponse (.gotResponse ⟨404, "found it fine", some (.obj [])⟩) =
      .error (.sdk (.notFoundError (.str "Escrow not found"))) :=
  ⟨(c2_status_code_mapping _).1 rfl,
   (c2_status_code_mapping _).2.1 rfl,
   (c2_status_code_mapping _).2.2 rfl⟩

/-- C5: a response whose status is not 401/403/404 and whose body does
not parse as JSON fails with a `HandshakeError` whose message is the
prefix "Invalid JSON response: " followed by the raw body text (so the
message includes the raw text). -/
theorem c5_unparseable_body (status : Nat) (text : String)
    (h1 : status ≠ 401) (h2 : status ≠ 403) (h3 : status ≠ 404) :
    mapResponse (.gotResponse ⟨status, text, none⟩) =
      .error (.sdk (.handshakeError
        (.str ("Invalid JSON response: " ++ text)))) ∧
    ∃ pre, "Invalid JSON response: " ++ text = pre ++ text := by
  refine ⟨?_, "Invalid JSON response: ", rfl⟩
  simp [mapResponse, h1, h2, h3]

/-- C5 witness: a 500 response with a non-JSON body. -/
theorem c5_unparseable_body_witness :
    mapResponse (.gotResponse ⟨500, "Bad Gateway", none⟩) =
      .error (.sdk (.handshakeError
        (.str ("Invalid JSON response: " ++ "Bad Gateway")))) ∧
    ∃ pre, "Invalid JSON response: " ++ "Bad Gateway" = pre ++ "Bad Gateway" :=
  c5_unparseable_body 500 "Bad Gateway"
    (by decide) (by decide) (by decide)

/-- C3 counterexample: a 200 OK response with object body
`success: 0, error: "boom"` — `success` is present but is NOT the
literal `false`, so the claim as stated demands that the parsed body be
returned; the code instead tests Python truthiness
(`not data.get("success", True)`), so `0` fires the check and the call
fails with `HandshakeError("boom")`. -/
theorem c3_counterexample :
    mapResponse (.gotResponse ⟨200, "body",
        some (.obj [("success", .num 0), ("error", .str "boom")])⟩) =
      .error (.sdk (.handshakeError (.str "boom"))) ∧
    mapResponse (.gotResponse ⟨200, "body",
        some (.obj [("success", .num 0), ("error", .str "boom")])⟩) ≠
      .ok (.obj [("success", .num 0), ("error", .str "boom")]) :=
  ⟨rfl, fun h => Except.noConfusion h⟩

/-- C3 amended: for every response whose status is not 401/403/404 and
whose body parses as a JSON object, if the object's `success` key holds
a Python-falsy value (the literal `false` among them) and an `error`
key is present then the call fails with `HandshakeError` carrying that
error value, regardless of HTTP status — in particular on 200 OK;
otherwise the parsed object is returned as the result.  A body parsing
to a non-object JSON value is not returned but raises
`AttributeError`. -/
theorem c3_success_error_check (status : Nat) (text : String)
    (kvs : List (String × Json))
    (h1 : status ≠ 401) (h2 : status ≠ 403) (h3 : status ≠ 404) :
    (∀ v, truthy ((kvs.lookup "success").getD (.bool true)) = false →
      kvs.lookup "error" = some v →
      mapResponse (.gotResponse ⟨status, text, some (.obj kvs)⟩) =
        .error (.sdk (.handshakeError v))) ∧
    (truthy ((kvs.lookup "success").getD (.bool true)) = true ∨
        kvs.lookup "error" = none →
      mapResponse (.gotResponse ⟨status, text, some (.obj kvs)⟩) =
        .ok (.obj kvs)) ∧
    (∀ j, j.isObj = false →
      mapResponse (.gotResponse ⟨status, text, some j⟩) =
        .error .attributeError) := by
  refine ⟨fun v hf he => ?_, fun h => ?_, fun j hj => ?_⟩
  · rw [mapResponse_obj status text kvs h1 h2 h3]
    simp [hf, he]
  · rw [mapResponse_obj status text kvs h1 h2 h3]
    rcases h with h | h <;> simp [h]
  · cases j <;> simp_all [mapResponse, h1, h2, h3, Json.isObj]

/-- C3 amended witness: the spec's own example, a 200 OK with
`success: false, error: "insufficient funds"`, yields
`HandshakeError("insufficient funds")`; and a 200 OK whose body object
has no `error` key is returned as the result. -/
theorem c3_success_error_check_witness :
    mapResponse (.gotResponse ⟨200, "t",
        some (.obj [("success", .bool false),
                    ("error", .str "insufficient funds")])⟩) =
      .error (.sdk (.handshakeError (.str "insufficient funds"))) ∧
    mapResponse (.gotResponse ⟨200, "t",
        some (.obj [("escrow", .obj [])])⟩) =
      .ok (.obj [("escrow", .obj [])]) :=
  ⟨(c3_success_error_check 200 "t" _ (by decide) (by decide) (by decide)).1
      _ rfl rfl,
   (c3_success_error_check 200 "t" _ (by decide) (by decide)
      (by decide)).2.1 (Or.inr rfl)⟩

/-- C1: a `create_escrow` call with empty `buyer_agent_id`, empty
`job_description`, `amount ≤ 0`, or a currency outside ETH/USDC fails
with `ValidationError` and issues no network request; moreover any
error an operation raises while having issued no request is a
`ValidationError` (all other operations issue their request
unconditionally). -/
theorem c1_create_escrow_validation
    (oracle : Request → RequestOutcome) (a : CreateArgs) :
    (a.buyer_agent_id = "" ∨ a.job_description = "" ∨ a.amount ≤ 0 ∨
        (a.currency ≠ "ETH" ∧ a.currency ≠ "USDC") →
      (∃ m, (create_escrow oracle a).1 =
        .error (.sdk (.validationError (.str m)))) ∧
      (create_escrow oracle a).2 = []) ∧
    (∀ e, (create_escrow oracle a).1 = .error e →
      (create_escrow oracle a).2 = [] →
      ∃ m, e = .sdk (.validationError m)) ∧
    (∀ i, (get_escrow oracle i).2 ≠ []) ∧
    (∀ i w, (submit_work oracle i w).2 ≠ []) ∧
    (∀ i, (verify oracle i).2 ≠ []) ∧
    (∀ i, (payout oracle i).2 ≠ []) ∧
    (∀ i, (refund oracle i).2 ≠ []) ∧
    (health oracle).2 ≠ [] ∧
    (list_escrows oracle).2 ≠ [] := by
  refine ⟨fun h => ?_, fun e he hlog => ?_, ?_, ?_, ?_, ?_, ?_, ?_, ?_⟩
  · unfold create_escrow
    split_ifs with h1 h2 h3 h4
    · exact ⟨⟨_, rfl⟩, rfl⟩
    · exact ⟨⟨_, rfl⟩, rfl⟩
    · exact ⟨⟨_, rfl⟩, rfl⟩
    · exact ⟨⟨_, rfl⟩, rfl⟩
    · rcases h with h | h | h | h
      · exact absurd h h1
      · exact absurd h h2
      · exact absurd h h3
      · exact absurd h h4
  · unfold create_escrow at he hlog
    split_ifs at he hlog
    · exact ⟨_, by injection he with h; exact h.symm⟩
    · exact ⟨_, by injection he with h; exact h.symm⟩
    · exact ⟨_, by injection he with h; exact h.symm⟩
    · exact ⟨_, by injection he with h; exact h.symm⟩
    · simp [request_op] at hlog
  · intro i h
    simp [get_escrow, request_op] at h
  · intro i w h
    simp [submit_work, request_op] at h
  · intro i h
    simp [verify, request_op] at h
  · intro i h
    simp [payout, request_op] at h
  · intro i h
    simp [refund, request_op] at h
  · intro h
    simp [health, request_op] at h
  · intro h
    simp [list_escrows, request_op] at h

/-- C1 witness: `amount = 0` fails with `ValidationError` before any
request, even against a transport oracle that would answer. -/
theorem c1_create_escrow_validation_witness :
    (∃ m, (create_escrow (fun _ => .transportFail "unreached")
        { buyer_agent_id := "b", job_description := "j",
          amount := 0, currency := "USDC" }).1 =
      .error (.sdk (.validationError (.str m)))) ∧
    (create_escrow (fun _ => .transportFail "unreached")
        { buyer_agent_id := "b", job_description := "j",
          amount := 0, currency := "USDC" }).2 = [] :=
  (c1_create_escrow_validation _ _).1 (Or.inr (Or.inr (Or.inl le_rfl)))

/-- C4: building an `Escrow` from a payload object that contains every
Escrow key (its `status` holding one of the six enumerated status
strings) succeeds, and reading back every field yields exactly the
payload's corresponding values, with `status` mapped to the enum member
of that value; `currency` and `judge_verdict` are stored verbatim, so
enumerated payload values read back as exactly those values. -/
theorem c4_escrow_from_dict_roundtrip (kvs : List (String × Json))
    (vid vbuy vwag vjob vamt vcur vst vtf vwp vww vbw vws vjv vpt vtt vca : Json)
    (st : EscrowStatus)
    (hid : kvs.lookup "id" = some vid)
    (hbuy : kvs.lookup "buyer_agent_id" = some vbuy)
    (hwag : kvs.lookup "worker_agent_id" = some vwag)
    (hjob : kvs.lookup "job_description" = some vjob)
    (hamt : kvs.lookup "amount_locked" = some vamt)
    (hcur : kvs.lookup "currency" = some vcur)
    (hst : kvs.lookup "status" = some vst)
    (henum : EscrowStatus.fromValue vst = some st)
    (htf : kvs.lookup "toll_fee" = some vtf)
    (hwp : kvs.lookup "worker_payout" = some vwp)
    (hww : kvs.lookup "worker_wallet" = some vww)
    (hbw : kvs.lookup "buyer_wallet" = some vbw)
    (hws : kvs.lookup "work_submitted" = some vws)
    (hjv : kvs.lookup "judge_verdict" = some vjv)
    (hpt : kvs.lookup "payout_tx_hash" = some vpt)
    (htt : kvs.lookup "toll_tx_hash" = some vtt)
    (hca : kvs.lookup "created_at" = some vca) :
    Escrow.from_dict kvs =
      .ok { id := some vid, buyer_agent_id := some vbuy,
            worker_agent_id := some vwag, job_description := some vjob,
            amount_locked := vamt, currency := vcur, status := st,
            toll_fee := vtf, worker_payout := vwp,
            worker_wallet := some vww, buyer_wallet := some vbw,
            work_submitted := some vws, judge_verdict := some vjv,
            payout_tx_hash := some vpt, toll_tx_hash := some vtt,
            created_at := some vca } := by
  simp [Escrow.from_dict, hid, hbuy, hwag, hjob, hamt, hcur, hst, henum,
    htf, hwp, hww, hbw, hws, hjv, hpt, htt, hca]

/-- C4 witness: a concrete full server payload round-trips. -/
theorem c4_escrow_from_dict_roundtrip_witness :
    Escrow.from_dict
      [("id", .str "e-1"), ("buyer_agent_id", .str "buyer"),
       ("worker_agent_id", .str "worker"), ("job_description", .str "job"),
       ("amount_locked", .num 50), ("currency", .str "USDC"),
       ("status", .str "VERIFIED"), ("toll_fee", .num (5/4)),
       ("worker_payout", .num (195/4)), ("worker_wallet", .str "0xw"),
       ("buyer_wallet", .str "0xb"), ("work_submitted", .str "code"),
       ("judge_verdict", .str "VALID"), ("payout_tx_hash", .str "0xp"),
       ("toll_tx_hash", .str "0xt"), ("created_at", .str "2026-01-01")] =
      .ok { id := some (.str "e-1"), buyer_agent_id := some (.str "buyer"),
            worker_agent_id := some (.str "worker"),
            job_description := some (.str "job"),
            amount_locked := .num 50, currency := .str "USDC",
            status := .VERIFIED, toll_fee := .num (5/4),
            worker_payout := .num (195/4),
            worker_wallet := some (.str "0xw"),
            buyer_wallet := some (.str "0xb"),
            work_submitted := some (.str "code"),
            judge_verdict := some (.str "VALID"),
            payout_tx_hash := some (.str "0xp"),
            toll_tx_hash := some (.str "0xt"),
            created_at := some (.str "2026-01-01") } :=
  c4_escrow_from_dict_roundtrip _ _ _ _ _ _ _ _ _ _ _ _ _ _ _ _ _ _
    rfl rfl rfl rfl rfl rfl rfl rfl rfl rfl rfl rfl rfl rfl rfl rfl rfl

/-- C6: a `create_escrow` call that passes validation issues exactly the
POST whose payload always binds the four mandatory keys to the given
arguments, binds an optional key only if that argument was provided,
and binds no key at all for an omitted optional argument. -/
theorem c6_create_escrow_payload
    (oracle : Request → RequestOutcome) (a : CreateArgs)
    (h1 : a.buyer_agent_id ≠ "") (h2 : a.job_description ≠ "")
    (h3 : ¬a.amount ≤ 0) (h4 : a.currency = "ETH" ∨ a.currency = "USDC") :
    (create_escrow oracle a).2 =
      [{ method := "POST", endpoint := "/escrows",
         json := some (.obj (create_payload a)) }] ∧
    (create_payload a).lookup "buyer_agent_id" = some (.str a.buyer_agent_id) ∧
    (create_payload a).lookup "job_description" =
      some (.str a.job_description) ∧
    (create_payload a).lookup "amount_locked" = some (.num a.amount) ∧
    (create_payload a).lookup "currency" = some (.str a.currency) ∧
    (((create_payload a).lookup "worker_agent_id").isSome = true →
      a.worker_agent_id ≠ none) ∧
    (a.worker_agent_id = none →
      (create_payload a).lookup "worker_agent_id" = none) ∧
    (((create_payload a).lookup "worker_wallet").isSome = true →
      a.worker_wallet ≠ none) ∧
    (a.worker_wallet = none →
      (create_payload a).lookup "worker_wallet" = none) ∧
    (((create_payload a).lookup "buyer_wallet").isSome = true →
      a.buyer_wallet ≠ none) ∧
    (a.buyer_wallet = none →
      (create_payload a).lookup "buyer_wallet" = none) := by
  have h4' : ¬(a.currency ≠ "ETH" ∧ a.currency ≠ "USDC") := by
    rcases h4 with h | h <;> simp [h]
  refine ⟨?_, rfl, rfl, rfl, rfl, ?_, ?_, ?_, ?_, ?_, ?_⟩
  · simp [create_escrow, request_op, h1, h2, h3, h4']
  · intro hsome hnone
    simp [create_payload, lookup_append, optEntry_lookup_self,
      optEntry_lookup_ne, List.lookup, hnone] at hsome
  · intro hnone
    simp [create_payload, lookup_append, optEntry_lookup_self,
      optEntry_lookup_ne, List.lookup, hnone]
  · intro hsome hnone
    simp [create_payload, lookup_append, optEntry_lookup_self,
      optEntry_lookup_ne, List.lookup, hnone] at hsome
  · intro hnone
    simp [create_payload, lookup_append, optEntry_lookup_self,
      optEntry_lookup_ne, List.lookup, hnone]
  · intro hsome hnone
    simp [create_payload, lookup_append, optEntry_lookup_self,
      optEntry_lookup_ne, List.lookup, hnone] at hsome
  · intro hnone
    simp [create_payload, lookup_append, optEntry_lookup_self,
      optEntry_lookup_ne, List.lookup, hnone]

/-- C6 witness: a call providing only `worker_wallet` sends the four
mandatory keys plus `worker_wallet`, and no key for the omitted
`worker_agent_id` and `buyer_wallet`. -/
theorem c6_create_escrow_payload_witness :
    (create_escrow (fun _ => .transportFail "t")
        { buyer_agent_id := "b", job_description := "j", amount := 10,
          currency := "USDC", worker_wallet := some "0xw" }).2 =
      [{ method := "POST", endpoint := "/escrows",
         json := some (.obj (create_payload
          { buyer_agent_id := "b", job_description := "j", amount := 10,
            currency := "USDC", worker_wallet := some "0xw" })) }] ∧
    (create_payload
        { buyer_agent_id := "b", job_description := "j", amount := 10,
          currency := "USDC", worker_wallet := some "0xw" }).lookup
      "worker_agent_id" = none :=
  ⟨((c6_create_escrow_payload (fun _ => .transportFail "t") _
      (by decide) (by decide) (by norm_num) (Or.inr rfl))).1,
   ((c6_create_escrow_payload (fun _ => .transportFail "t") _
      (by decide) (by decide) (by norm_num) (Or.inr rfl))).2.2.2.2.2.2.1 rfl⟩

/-- C7 counterexample: against the claim that every failure raised by a
client operation lies in the `HandshakeError` hierarchy, a `health` call
whose response is 200 OK with the JSON body `1` (which parses fine but
is not an object) raises Python's `AttributeError` at
`data.get("success", True)` — an error outside the SDK hierarchy. -/
theorem c7_counterexample :
    (health (fun _ => .gotResponse ⟨200, "1", some (.num 1)⟩)).1 =
      .error .attributeError ∧
    ∀ s : SdkError, Raised.attributeError ≠ .sdk s :=
  ⟨rfl, fun _ h => Raised.noConfusion h⟩

/-- C7 amended: the SDK's error classes form a single hierarchy rooted
at `HandshakeError`, with `AuthenticationError`, `NotFoundError` and
`ValidationError` its direct subclasses, and every error the core
request operation itself raises lies in this hierarchy — except that a
response body parsing to a non-object JSON value makes it raise
Python's `AttributeError`, which falls outside the hierarchy. -/
theorem c7_error_hierarchy :
    (∀ c : ErrClass, c = .handshakeError ∨
      superclass c = some .handshakeError) ∧
    superclass .authenticationError = some .handshakeError ∧
    superclass .notFoundError = some .handshakeError ∧
    superclass .validationError = some .handshakeError ∧
    (∀ o e, mapResponse o = .error e →
      (∃ s, e = .sdk s ∧ (s.cls = .handshakeError ∨
        superclass s.cls = some .handshakeError)) ∨
      (e = .attributeError ∧ ∃ r j, o = .gotResponse r ∧
        r.jsonBody = some j ∧ j.isObj = false)) := by
  refine ⟨fun c => by cases c <;> simp [superclass], rfl, rfl, rfl,
    fun o e h => ?_⟩
  rcases o with c | r
  · simp only [mapResponse] at h
    injection h with h
    exact Or.inl ⟨_, h.symm, Or.inl rfl⟩
  · obtain ⟨status, text, body⟩ := r
    by_cases h1 : status = 401
    · simp [mapResponse, h1] at h
      exact Or.inl ⟨_, h.symm, Or.inr rfl⟩
    · by_cases h2 : status = 403
      · simp [mapResponse, h1, h2] at h
        exact Or.inl ⟨_, h.symm, Or.inr rfl⟩
      · by_cases h3 : status = 404
        · simp [mapResponse, h1, h2, h3] at h
          exact Or.inl ⟨_, h.symm, Or.inr rfl⟩
        · rcases body with _ | j
          · simp [mapResponse, h1, h2, h3] at h
            exact Or.inl ⟨_, h.symm, Or.inl rfl⟩
          · cases j with
            | obj kvs =>
                rw [mapResponse_obj status text kvs h1 h2 h3] at h
                split at h
                · injection h with h
                  exact Or.inl ⟨_, h.symm, Or.inl rfl⟩
                · simp at h
            | null =>
                simp [mapResponse, h1, h2, h3] at h
                exact Or.inr ⟨h.symm, _, _, rfl, rfl, rfl⟩
            | bool b =>
                simp [mapResponse, h1, h2, h3] at h
                exact Or.inr ⟨h.symm, _, _, rfl, rfl, rfl⟩
            | num q =>
                simp [mapResponse, h1, h2, h3] at h
                exact Or.inr ⟨h.symm, _, _, rfl, rfl, rfl⟩
            | str s =>
                simp [mapResponse, h1, h2, h3] at h
                exact Or.inr ⟨h.symm, _, _, rfl, rfl, rfl⟩
            | arr elems =>
                simp [mapResponse, h1, h2, h3] at h
                exact Or.inr ⟨h.symm, _, _, rfl, rfl, rfl⟩

/-- C7 amended witness: the classification applied to a concrete
transport failure. -/
theorem c7_error_hierarchy_witness :
    (∃ s, Raised.sdk (.handshakeError (.str ("Request failed: " ++ "dns")))
        = .sdk s ∧ (s.cls = .handshakeError ∨
          superclass s.cls = some .handshakeError)) ∨
    (Raised.sdk (.handshakeError (.str ("Request failed: " ++ "dns")))
        = .attributeError ∧
      ∃ r j, RequestOutcome.transportFail "dns" = .gotResponse r ∧
        r.jsonBody = some j ∧ j.isObj = false) :=
  c7_error_hierarchy.2.2.2.2 (.transportFail "dns") _ rfl

/-- C8: the core request operation issues exactly one request, mapping a
transport failure to a `HandshakeError` wrapping the cause, with no
retry; every public operation issues at most one request per call
(exactly one, except a `create_escrow` stopped by local validation,
which issues none). -/
theorem c8_one_attempt (oracle : Request → RequestOutcome)
    (req : Request) (cause : String) :
    (oracle req = .transportFail cause →
      (request_op oracle req).1 =
        .error (.sdk (.handshakeError
          (.str ("Request failed: " ++ cause))))) ∧
    (request_op oracle req).2.length = 1 ∧
    (health oracle).2.length = 1 ∧
    (list_escrows oracle).2.length = 1 ∧
    (∀ i, (get_escrow oracle i).2.length = 1) ∧
    (∀ a : CreateArgs, (create_escrow oracle a).2.length = 1 ∨
      ((create_escrow oracle a).2.length = 0 ∧
        ∃ v, (create_escrow oracle a).1 =
          .error (.sdk (.validationError v)))) ∧
    (∀ i w, (submit_work oracle i w).2.length = 1) ∧
    (∀ i, (verify oracle i).2.length = 1) ∧
    (∀ i, (payout oracle i).2.length = 1) ∧
    (∀ i, (refund oracle i).2.length = 1) := by
  refine ⟨fun h => ?_, rfl, rfl, rfl, fun i => rfl, fun a => ?_,
    fun i w => rfl, fun i => rfl, fun i => rfl, fun i => rfl⟩
  · simp [request_op, h, mapResponse]
  · unfold create_escrow
    split_ifs
    · exact Or.inr ⟨rfl, _, rfl⟩
    · exact Or.inr ⟨rfl, _, rfl⟩
    · exact Or.inr ⟨rfl, _, rfl⟩
    · exact Or.inr ⟨rfl, _, rfl⟩
    · exact Or.inl rfl

/-- C8 witness: a timed-out request is wrapped once and not retried. -/
theorem c8_one_attempt_witness :
    (request_op (fun _ => .transportFail "timed out")
        { method := "GET", endpoint := "/health", json := none }).1 =
      .error (.sdk (.handshakeError
        (.str ("Request failed: " ++ "timed out")))) ∧
    (request_op (fun _ => .transportFail "timed out")
        { method := "GET", endpoint := "/health", json := none }).2.length
      = 1 :=
  ⟨(c8_one_attempt (fun _ => .transportFail "timed out") _ "timed out").1 rfl,
   (c8_one_attempt (fun _ => .transportFail "timed out")
      { method := "GET", endpoint := "/health", json := none }
      "timed out").2.1⟩

/-- C9: `payout` performs no local status check or local validation —
whatever the escrow's previously observed status, it issues exactly one
request, to the payout endpoint; its result is a function only of the
server's response to that request; and it never raises a
`ValidationError`. -/
theorem c9_payout_no_local_check
    (oracle oracle2 : Request → RequestOutcome) (escrow_id : String) :
    (payout oracle escrow_id).2 =
      [{ method := "POST",
         endpoint := "/escrows/" ++ escrow_id ++ "/payout",
         json := none }] ∧
    (oracle2 { method := "POST",
               endpoint := "/escrows/" ++ escrow_id ++ "/payout",
               json := none } =
      oracle { method := "POST",
               endpoint := "/escrows/" ++ escrow_id ++ "/payout",
               json := none } →
      payout oracle2 escrow_id = payout oracle escrow_id) ∧
    (∀ v, (payout oracle escrow_id).1 ≠
      .error (.sdk (.validationError v))) := by
  refine ⟨rfl, fun h => ?_, fun v hv => ?_⟩
  · simp [payout, request_op, h]
  · simp only [payout, request_op] at hv
    rcases hm : mapResponse (oracle
      { method := "POST",
        endpoint := "/escrows/" ++ escrow_id ++ "/payout",
        json := none }) with e | j
    · rw [hm] at hv
      simp only [Except.bind] at hv
      injection hv with hv
      exact mapResponse_no_validation _ v (hm.trans (by rw [hv]))
    · rw [hm] at hv
      simp only [Except.bind] at hv
      exact payoutResult_from_no_validation j v hv

/-- C9 witness: a payout forwarded against a server that answers the
payout endpoint with a 404 (e.g. for a rejected or unknown escrow)
behaves identically under any oracle agreeing on that endpoint. -/
theorem c9_payout_no_local_check_witness :
    payout (fun _ => .gotResponse ⟨404, "", none⟩) "esc-9" =
      payout (fun _ => .gotResponse ⟨404, "", none⟩) "esc-9" :=
  (c9_payout_no_local_check (fun _ => .gotResponse ⟨404, "", none⟩)
    (fun _ => .gotResponse ⟨404, "", none⟩) "esc-9").2.1 rfl

/-- C10: a `get_escrow` whose successful response body is an object
lacking the `escrow` key does not fail: it returns an `Escrow` built
from the empty dict — `id`, `buyer_agent_id`, `job_description` and all
optional fields `None`, `amount_locked`, `toll_fee` and `worker_payout`
`0`, currency `"ETH"`, status `LOCKED`. -/
theorem c10_get_escrow_defaults
    (oracle : Request → RequestOutcome) (escrow_id : String)
    (status : Nat) (text : String) (kvs : List (String × Json))
    (hresp : oracle { method := "GET",
                      endpoint := "/escrows/" ++ escrow_id,
                      json := none } =
      .gotResponse ⟨status, text, some (.obj kvs)⟩)
    (h1 : status ≠ 401) (h2 : status ≠ 403) (h3 : status ≠ 404)
    (hok : truthy ((kvs.lookup "success").getD (.bool true)) = true ∨
      kvs.lookup "error" = none)
    (hesc : kvs.lookup "escrow" = none) :
    (get_escrow oracle escrow_id).1 =
      .ok { id := none, buyer_agent_id := none, worker_agent_id := none,
            job_description := none, amount_locked := .num 0,
            currency := .str "ETH", status := .LOCKED,
            toll_fee := .num 0, worker_payout := .num 0,
            worker_wallet := none, buyer_wallet := none,
            work_submitted := none, judge_verdict := none,
            payout_tx_hash := none, toll_tx_hash := none,
            created_at := none } := by
  have hmap : mapResponse (.gotResponse ⟨status, text, some (.obj kvs)⟩) =
      .ok (.obj kvs) := by
    rw [mapResponse_obj status text kvs h1 h2 h3]
    rcases hok with h | h <;> simp [h]
  simp only [get_escrow, request_op, hresp, hmap, Except.bind]
  simp [escrow_from_response, hesc, Escrow.from_dict_json,
    Escrow.from_dict, EscrowStatus.fromValue, List.lookup]

/-- C10 witness: a 200 OK whose body is an empty JSON object yields the
all-defaults escrow. -/
theorem c10_get_escrow_defaults_witness :
    (get_escrow (fun _ => .gotResponse ⟨200, "", some (.obj [])⟩)
        "esc-10").1 =
      .ok { id := none, buyer_agent_id := none, worker_agent_id := none,
            job_description := none, amount_locked := .num 0,
            currency := .str "ETH", status := .LOCKED,
            toll_fee := .num 0, worker_payout := .num 0,
            worker_wallet := none, buyer_wallet := none,
            work_submitted := none, judge_verdict := none,
            payout_tx_hash := none, toll_tx_hash := none,
            created_at := none } :=
  c10_get_escrow_defaults (fun _ => .gotResponse ⟨200, "", some (.obj [])⟩)
    "esc-10" 200 "" [] rfl (by decide) (by decide) (by decide)
    (Or.inl rfl) rfl

end HandshakeSDK
